import Mathlib

/-!
Shallow embedding of the cart-service repository (Go) for specification
checking.

Source files embedded:
* `internal/core/domain/cart.go` — the `Cart`, `CartItem` and
  `AddToCartRequest` records.
* `internal/core/repository/postgres_cart_repository.go` — the store
  operations `FindByUserID`, `GetItemCount`, `AddItem`, `UpdateItem`,
  `RemoveItem`, `Clear`, modelled against the `cart_items` table of
  `db/migrations/sql/V1__init_schema.sql`.
* `internal/logic/v1/service.go` — the service layer `GetCart`,
  `GetCartCount`, `AddToCart`, `UpdateItemQuantity`, `RemoveItem`,
  `ClearCart` with its validation and error translation.

Modelling conventions:
* The database table `cart_items` is a list of `CartRow` plus the next
  value of the `id` SERIAL sequence.
* Row ids are `Nat` (SERIAL integers); the Go string-typed item id is
  modelled by the same `Nat`, with the Go zero value `""` modelled as `0`.
* `product_price` (Go `float64`, SQL `DECIMAL(10,2)`) is modelled as `ℚ`;
  the aggregate arithmetic of the code is ring arithmetic on these values.
* `NOW()` is an explicit `now : Nat` argument at each call that writes a
  timestamp.
* pgx connectivity and scan failures are environmental: `FindByUserID`
  takes a `queryOk : Bool` oracle (did `pool.Query` succeed) and a
  `scanOk : CartRow → Bool` oracle (did `rows.Scan` succeed on that row),
  mirroring the two failure points of the Go code.  The remaining
  operations are modelled on their deterministic paths; `UpdateItem` and
  `RemoveItem` return `domain.ErrNotFound` exactly when the Go code does
  (zero rows affected).
-/

namespace CartService

namespace domain

/-- Record `domain.CartItem` from `internal/core/domain/cart.go`.  `ID` is the Go
string field, modelled as `Nat` (zero value `""` ↦ `0`). -/
structure CartItem where
  ID : Nat
  ProductID : String
  ProductName : String
  ProductPrice : ℚ
  Quantity : Int
  Subtotal : ℚ
deriving DecidableEq, Repr

/-- Record `domain.Cart` from `internal/core/domain/cart.go`. -/
structure Cart where
  UserID : String
  Items : List CartItem
  Subtotal : ℚ
  Shipping : ℚ
  Total : ℚ
  ItemCount : Nat
deriving DecidableEq, Repr

/-- Record `domain.AddToCartRequest` from `internal/core/domain/cart.go`. -/
structure AddToCartRequest where
  ProductID : String
  ProductName : String
  ProductPrice : ℚ
  Quantity : Int
deriving DecidableEq, Repr

/-- The store-level sentinel errors: `domain.ErrNotFound`, and a generic
connectivity/query failure, which the Go code represents as any other
non-nil `error` from pgx. -/
inductive RepoErr where
  | notFound
  | storeError
deriving DecidableEq, Repr

end domain

namespace repository

/-- One row of the `cart_items` table
(`db/migrations/sql/V1__init_schema.sql`). -/
structure CartRow where
  id : Nat
  userId : String
  productId : String
  productName : String
  productPrice : ℚ
  quantity : Int
  createdAt : Nat
  updatedAt : Nat
deriving DecidableEq, Repr

/-- The `cart_items` table together with the state of the `id` SERIAL
sequence. -/
structure Store where
  rows : List CartRow
  nextId : Nat
deriving DecidableEq, Repr

/-- The `ON CONFLICT (user_id, product_id)` conflict target: does row `r`
belong to user `u` and product `p`? -/
def matchKey (u p : String) (r : CartRow) : Bool :=
  r.userId == u && r.productId == p

/-- The `WHERE id = $ AND user_id = $` match predicate shared by
`UpdateItem` and `RemoveItem` (ownership is part of the match). -/
def matchItem (itemID : Nat) (u : String) (r : CartRow) : Bool :=
  r.id == itemID && r.userId == u

/-- The `WHERE user_id = $1` predicate. -/
def matchUser (u : String) (r : CartRow) : Bool :=
  r.userId == u

/-- One successful `rows.Scan` of `FindByUserID`: the columns of the row
copied into a `domain.CartItem`, with the per-item
`Subtotal = ProductPrice * float64(Quantity)` attached. -/
def scanItem (r : CartRow) : domain.CartItem :=
  { ID := r.id, ProductID := r.productId, ProductName := r.productName,
    ProductPrice := r.productPrice, Quantity := r.quantity,
    Subtotal := r.productPrice * (r.quantity : ℚ) }

/-- The body of the `rows.Next()` loop of `FindByUserID`: scan each row
into a `domain.CartItem`, skipping (Go `continue`) any row whose
`rows.Scan` fails per the `scanOk` oracle, while accumulating the running
`subtotal`.  Returns the accumulated item list and subtotal. -/
def scanRows (scanOk : CartRow → Bool) : List CartRow → List domain.CartItem × ℚ
  | [] => ([], 0)
  | r :: rest =>
    if scanOk r then
      let item := scanItem r
      let tail := scanRows scanOk rest
      (item :: tail.1, item.Subtotal + tail.2)
    else
      scanRows scanOk rest

/-- Function `PostgresCartRepository.FindByUserID`: select the rows of the user, scan
them into items (silently skipping rows whose scan fails), and build the
`domain.Cart` aggregate with `Shipping = 5.00`,
`Total = subtotal + 5.00`, `ItemCount = len(items)`. -/
def FindByUserID (queryOk : Bool) (scanOk : CartRow → Bool)
    (s : Store) (userID : String) : Except domain.RepoErr domain.Cart :=
  if queryOk then
    let scanned := scanRows scanOk (s.rows.filter (matchUser userID))
    Except.ok
      { UserID := userID, Items := scanned.1, Subtotal := scanned.2,
        Shipping := 5, Total := scanned.2 + 5, ItemCount := scanned.1.length }
  else
    Except.error domain.RepoErr.storeError

/-- Function `PostgresCartRepository.GetItemCount`:
`SELECT COALESCE(SUM(quantity), 0) FROM cart_items WHERE user_id = $1`. -/
def GetItemCount (s : Store) (userID : String) : Int :=
  ((s.rows.filter (matchUser userID)).map (fun r => r.quantity)).sum

/-- Function `PostgresCartRepository.AddItem`: the atomic upsert
`INSERT ... ON CONFLICT (user_id, product_id) DO UPDATE SET
quantity = cart_items.quantity + EXCLUDED.quantity, updated_at = NOW()
RETURNING id`, in an explicit transaction.  Returns the post-commit store
and the id produced by `RETURNING id`.  Note the Go method receives
`item domain.CartItem` by value and scans the returned id into that local
copy, so the id in the second component never reaches the Go caller. -/
def AddItem (s : Store) (userID : String) (item : domain.CartItem)
    (now : Nat) : Store × Nat :=
  match s.rows.find? (matchKey userID item.ProductID) with
  | some r =>
    ({ s with rows := s.rows.map (fun r0 =>
        if matchKey userID item.ProductID r0 then
          { r0 with quantity := r0.quantity + item.Quantity, updatedAt := now }
        else r0) },
     r.id)
  | none =>
    ({ rows := s.rows ++
        [{ id := s.nextId, userId := userID, productId := item.ProductID,
           productName := item.ProductName, productPrice := item.ProductPrice,
           quantity := item.Quantity, createdAt := now, updatedAt := now }],
       nextId := s.nextId + 1 },
     s.nextId)

/-- Function `PostgresCartRepository.UpdateItem`:
`UPDATE cart_items SET quantity = $1, updated_at = NOW()
WHERE id = $2 AND user_id = $3`, returning `domain.ErrNotFound` when
`RowsAffected() == 0`. -/
def UpdateItem (s : Store) (userID : String) (itemID : Nat)
    (quantity : Int) (now : Nat) : Except domain.RepoErr Store :=
  if (s.rows.filter (matchItem itemID userID)).isEmpty then
    Except.error domain.RepoErr.notFound
  else
    Except.ok { s with rows := s.rows.map (fun r =>
      if matchItem itemID userID r then
        { r with quantity := quantity, updatedAt := now }
      else r) }

/-- Function `PostgresCartRepository.RemoveItem`:
`DELETE FROM cart_items WHERE id = $1 AND user_id = $2`, returning
`domain.ErrNotFound` when `RowsAffected() == 0`. -/
def RemoveItem (s : Store) (userID : String) (itemID : Nat) :
    Except domain.RepoErr Store :=
  if (s.rows.filter (matchItem itemID userID)).isEmpty then
    Except.error domain.RepoErr.notFound
  else
    Except.ok { s with rows := s.rows.filter (fun r => !matchItem itemID userID r) }

/-- Function `PostgresCartRepository.Clear`:
`DELETE FROM cart_items WHERE user_id = $1` (no affected-row check). -/
def Clear (s : Store) (userID : String) : Store :=
  { s with rows := s.rows.filter (fun r => !matchUser userID r) }

/-- The quantity of the `(user, product)` row of the store, if any: the
first row matching the `(user_id, product_id)` uniqueness key.  Under the
`UNIQUE(user_id, product_id)` constraint of the table there is at most one. -/
def Store.qtyOf (s : Store) (u p : String) : Option Int :=
  (s.rows.find? (matchKey u p)).map (fun r => r.quantity)

/-- Database well-formedness from the schema
(`V1__init_schema.sql`): row ids are pairwise distinct (`id` is the
primary key), `(user_id, product_id)` pairs are pairwise distinct
(`UNIQUE(user_id, product_id)`), and every row id is below the SERIAL
sequence value. -/
def Store.WF (s : Store) : Prop :=
  s.rows.Pairwise (fun a b => a.id ≠ b.id ∧ (a.userId ≠ b.userId ∨ a.productId ≠ b.productId))
    ∧ ∀ r ∈ s.rows, r.id < s.nextId

instance (s : Store) : Decidable s.WF := by
  unfold Store.WF
  infer_instance

/-- The `CHECK (quantity > 0)` row invariant of the schema, as a property
of a store. -/
def Store.PosQty (s : Store) : Prop :=
  ∀ r ∈ s.rows, 0 < r.quantity

instance (s : Store) : Decidable s.PosQty := by
  unfold Store.PosQty
  infer_instance

end repository

namespace logic

open repository

/-- The service-level error values of `internal/logic/v1/errors.go` that
the cart service can surface, plus pass-through of a generic store
failure. -/
inductive SvcErr where
  | invalidQuantity
  | cartItemNotFound
  | storeError
deriving DecidableEq, Repr

/-- Outcome of one service call: the value or error returned to the
caller, the store state after the call, and how many repository
operations the call issued (the observable of a recording test double,
as in the `MockCartRepository` of `service_test.go`). -/
structure SvcResult (α : Type) where
  res : Except SvcErr α
  store : Store
  storeCalls : Nat
deriving Repr

/-- Method `CartService.GetCart`: delegate to `FindByUserID`; errors pass
through, the store is not mutated. -/
def GetCart (queryOk : Bool) (scanOk : CartRow → Bool)
    (s : Store) (userID : String) : SvcResult domain.Cart :=
  match FindByUserID queryOk scanOk s userID with
  | Except.ok cart => ⟨Except.ok cart, s, 1⟩
  | Except.error _ => ⟨Except.error SvcErr.storeError, s, 1⟩

/-- Method `CartService.GetCartCount`: delegate to `GetItemCount`; the store is
not mutated. -/
def GetCartCount (s : Store) (userID : String) : SvcResult Int :=
  ⟨Except.ok (GetItemCount s userID), s, 1⟩

/-- Method `CartService.AddToCart`: reject `Quantity <= 0` with
`ErrInvalidQuantity` before any repository call; otherwise build the
`domain.CartItem` from the request (other fields at their Go zero
values) and call `AddItem`.  The Go repository method takes the item by
value, so the id scanned from `RETURNING id` stays in the local copy of the callee
and the item returned to the caller is exactly the one constructed here. -/
def AddToCart (s : Store) (userID : String) (req : domain.AddToCartRequest)
    (now : Nat) : SvcResult domain.CartItem :=
  if req.Quantity ≤ 0 then
    ⟨Except.error SvcErr.invalidQuantity, s, 0⟩
  else
    let item : domain.CartItem :=
      { ID := 0, ProductID := req.ProductID, ProductName := req.ProductName,
        ProductPrice := req.ProductPrice, Quantity := req.Quantity, Subtotal := 0 }
    let stepped := AddItem s userID item now
    ⟨Except.ok item, stepped.1, 1⟩

/-- Method `CartService.UpdateItemQuantity`: reject `quantity <= 0` with
`ErrInvalidQuantity` before any repository call; otherwise call
`UpdateItem` and translate `domain.ErrNotFound` into
`ErrCartItemNotFound`, passing other errors through. -/
def UpdateItemQuantity (s : Store) (userID : String) (itemID : Nat)
    (quantity : Int) (now : Nat) : SvcResult Unit :=
  if quantity ≤ 0 then
    ⟨Except.error SvcErr.invalidQuantity, s, 0⟩
  else
    match UpdateItem s userID itemID quantity now with
    | Except.ok s2 => ⟨Except.ok (), s2, 1⟩
    | Except.error domain.RepoErr.notFound => ⟨Except.error SvcErr.cartItemNotFound, s, 1⟩
    | Except.error domain.RepoErr.storeError => ⟨Except.error SvcErr.storeError, s, 1⟩

/-- Method `CartService.RemoveItem`: call the repository `RemoveItem` and
translate `domain.ErrNotFound` into `ErrCartItemNotFound`, passing other
errors through. -/
def RemoveItem (s : Store) (userID : String) (itemID : Nat) : SvcResult Unit :=
  match repository.RemoveItem s userID itemID with
  | Except.ok s2 => ⟨Except.ok (), s2, 1⟩
  | Except.error domain.RepoErr.notFound => ⟨Except.error SvcErr.cartItemNotFound, s, 1⟩
  | Except.error domain.RepoErr.storeError => ⟨Except.error SvcErr.storeError, s, 1⟩

/-- Method `CartService.ClearCart`: no validation; delegate to `Clear`. -/
def ClearCart (s : Store) (userID : String) : SvcResult Unit :=
  ⟨Except.ok (), Clear s userID, 1⟩

end logic

/-! Concrete sample data used by the witness theorems. -/

namespace samples

open repository

/-- An empty store with the SERIAL sequence at 1. -/
def s0 : Store := { rows := [], nextId := 1 }

/-- A stored row: user "1" has two units of product "p1". -/
def rowMouse : CartRow :=
  { id := 1, userId := "1", productId := "p1", productName := "Wireless Mouse",
    productPrice := 29.99, quantity := 2, createdAt := 0, updatedAt := 0 }

/-- A stored row: user "1" has one unit of product "p2". -/
def rowKeyboard : CartRow :=
  { id := 2, userId := "1", productId := "p2", productName := "Mechanical Keyboard",
    productPrice := 79.99, quantity := 1, createdAt := 0, updatedAt := 0 }

/-- A store holding the two rows of user "1" (the worked example of the spec). -/
def s2 : Store := { rows := [rowMouse, rowKeyboard], nextId := 3 }

/-- A store where user "1" holds only the mouse row (quantity 2). -/
def s1m : Store := { rows := [rowMouse], nextId := 2 }

/-- A store where user "1" holds only the keyboard row (quantity 1). -/
def s1k : Store := { rows := [rowKeyboard], nextId := 3 }

/-- Store `s2` after a successful `UpdateItem` of item 1 to quantity 7 at time 9. -/
def s2upd : Store :=
  { rows := [{ rowMouse with quantity := 7, updatedAt := 9 }, rowKeyboard], nextId := 3 }

/-- An `AddToCartRequest` for product "p1", quantity 2. -/
def reqA : CartService.domain.AddToCartRequest :=
  { ProductID := "p1", ProductName := "Wireless Mouse",
    ProductPrice := 29.99, Quantity := 2 }

/-- An `AddToCartRequest` with the invalid quantity 0. -/
def reqZero : CartService.domain.AddToCartRequest :=
  { ProductID := "p1", ProductName := "Wireless Mouse",
    ProductPrice := 29.99, Quantity := 0 }

/-- An add request item for product "p1", quantity 2. -/
def itA : CartService.domain.CartItem :=
  { ID := 0, ProductID := "p1", ProductName := "Wireless Mouse",
    ProductPrice := 29.99, Quantity := 2, Subtotal := 0 }

/-- An add request item for product "p1", quantity 3. -/
def itB : CartService.domain.CartItem :=
  { ID := 0, ProductID := "p1", ProductName := "Wireless Mouse",
    ProductPrice := 29.99, Quantity := 3, Subtotal := 0 }

end samples

/-! Helper lemmas shared by several claim proofs. -/

namespace repository

theorem find?_map_condUpdate (p : CartRow → Bool) (f : CartRow → CartRow)
    (hf : ∀ r, p (f r) = p r) (l : List CartRow) :
    (l.map (fun r => if p r then f r else r)).find? p
      = (l.find? p).map (fun r => if p r then f r else r) := by
  induction l with
  | nil => simp
  | cons a l ih =>
    by_cases h : p a
    · simp only [List.map_cons, if_pos h]
      rw [List.find?_cons_of_pos _ ((hf a).trans h), List.find?_cons_of_pos _ h]
      simp [h]
    · simp only [List.map_cons, if_neg h]
      rw [List.find?_cons_of_neg _ h, List.find?_cons_of_neg _ h, ih]

/-- Effect of the `AddItem` upsert on the `(user, product)` quantity: the
row ends at its former quantity (0 when absent) plus the added
quantity. -/
theorem qtyOf_addItem (s : Store) (u : String) (it : domain.CartItem)
    (now : Nat) :
    ((AddItem s u it now).1).qtyOf u it.ProductID
      = some ((s.qtyOf u it.ProductID).getD 0 + it.Quantity) := by
  unfold Store.qtyOf AddItem
  cases hfind : s.rows.find? (matchKey u it.ProductID) with
  | none =>
    simp only [hfind, List.find?_append, Option.map_none]
    simp [matchKey]
  | some r =>
    have hpr : matchKey u it.ProductID r = true := List.find?_some hfind
    simp only [hfind]
    rw [find?_map_condUpdate (matchKey u it.ProductID)
      (fun r0 => { r0 with quantity := r0.quantity + it.Quantity, updatedAt := now })
      (fun r0 => rfl) s.rows, hfind]
    simp [hpr]

/-- The items produced by the scan loop: exactly the rows whose scan
succeeded, in order, each converted by `scanItem`. -/
theorem scanRows_fst (scanOk : CartRow → Bool) (l : List CartRow) :
    (scanRows scanOk l).1 = (l.filter scanOk).map scanItem := by
  induction l with
  | nil => rfl
  | cons a l ih =>
    by_cases h : scanOk a
    · simp [scanRows, List.filter_cons, h, ih]
    · simp [scanRows, List.filter_cons, h, ih]

/-- The running subtotal of the scan loop equals the sum of the scanned
subtotals of the scanned items. -/
theorem scanRows_snd (scanOk : CartRow → Bool) (l : List CartRow) :
    (scanRows scanOk l).2
      = ((scanRows scanOk l).1.map (fun it => it.Subtotal)).sum := by
  induction l with
  | nil => rfl
  | cons a l ih =>
    by_cases h : scanOk a
    · simp [scanRows, h, ih]
    · simp [scanRows, h, ih]

/-- Filtering after a conditional in-place update commutes: the update
preserves the predicate. -/
theorem filter_map_condUpdate (p : CartRow → Bool) (f : CartRow → CartRow)
    (hf : ∀ r, p (f r) = p r) (l : List CartRow) :
    (l.map (fun r => if p r then f r else r)).filter p
      = (l.filter p).map (fun r => if p r then f r else r) := by
  induction l with
  | nil => rfl
  | cons a l ih =>
    by_cases h : p a
    · simp [List.filter_cons, h, hf, ih]
    · simp [List.filter_cons, h, hf, ih]

/-- A conditional in-place update is idempotent when the update function
is. -/
theorem map_condUpdate_idem (p : CartRow → Bool) (f : CartRow → CartRow)
    (hf : ∀ r, p (f r) = p r) (hff : ∀ r, f (f r) = f r) (l : List CartRow) :
    (l.map (fun r => if p r then f r else r)).map (fun r => if p r then f r else r)
      = l.map (fun r => if p r then f r else r) := by
  rw [List.map_map]
  apply List.map_congr_left
  intro r _
  by_cases h : p r
  · simp [Function.comp, h, hf, hff]
  · simp [Function.comp, h]

/-- After deleting the rows matching `p`, no row matching `p` remains. -/
theorem filter_not_filter (p : CartRow → Bool) (l : List CartRow) :
    (l.filter (fun r => !p r)).filter p = [] := by
  rw [List.filter_eq_nil_iff]
  intro r hr
  have h2 := (List.mem_filter.mp hr).2
  simp only [Bool.not_eq_true'] at h2
  simp [h2]

/-- Deleting the rows matching `p` twice is deleting them once. -/
theorem filter_not_idem (p : CartRow → Bool) (l : List CartRow) :
    (l.filter (fun r => !p r)).filter (fun r => !p r) = l.filter (fun r => !p r) :=
  List.filter_eq_self.mpr (fun r hr => (List.mem_filter.mp hr).2)

/-- Sum of an integer-valued map over rows that are all 1 is the list
length. -/
theorem sum_map_one (f : CartRow → Int) (l : List CartRow)
    (h : ∀ r ∈ l, f r = 1) : (l.map f).sum = (l.length : Int) := by
  induction l with
  | nil => rfl
  | cons a l ih =>
    have ha : f a = 1 := h a (List.mem_cons_self a l)
    have hl := ih (fun r hr => h r (List.mem_cons_of_mem a hr))
    simp [ha, hl]
    ring

end repository

/-! Claim theorems. -/

open repository

/-- C1: for every store state and every `addItem(userID, productID, ...,
quantity)` with `quantity > 0`: if no `cart_items` row exists for
`(userID, productID)`, a new row with that quantity is created; if a row
with quantity `q0` exists, its quantity becomes `q0 + quantity` (merge by
addition, never overwrite); and two successive adds of the same product
by the same user leave the row at the sum of both quantities regardless
of their order. -/
theorem addItem_merges_quantities (s : Store) (u p : String)
    (it1 it2 : domain.CartItem)
    (hp1 : it1.ProductID = p) (hp2 : it2.ProductID = p)
    (hq1 : 0 < it1.Quantity) (hq2 : 0 < it2.Quantity)
    (now1 now2 : Nat) :
    (s.qtyOf u p = none →
      ((AddItem s u it1 now1).1).qtyOf u p = some it1.Quantity) ∧
    (∀ q0 : Int, s.qtyOf u p = some q0 →
      ((AddItem s u it1 now1).1).qtyOf u p = some (q0 + it1.Quantity)) ∧
    ((AddItem (AddItem s u it1 now1).1 u it2 now2).1.qtyOf u p
      = some ((s.qtyOf u p).getD 0 + it1.Quantity + it2.Quantity)) ∧
    ((AddItem (AddItem s u it1 now1).1 u it2 now2).1.qtyOf u p
      = (AddItem (AddItem s u it2 now1).1 u it1 now2).1.qtyOf u p) := by
  subst hp1
  have h1 := qtyOf_addItem s u it1 now1
  have h2 := qtyOf_addItem (AddItem s u it1 now1).1 u it2 now2
  rw [hp2] at h2
  have h3 := qtyOf_addItem s u it2 now1
  rw [hp2] at h3
  have h4 := qtyOf_addItem (AddItem s u it2 now1).1 u it1 now2
  refine ⟨?_, ?_, ?_, ?_⟩
  · intro h
    rw [h1, h]
    simp
  · intro q0 h
    rw [h1, h]
    simp
  · rw [h2, h1]
    simp [add_assoc]
  · rw [h2, h1, h4, h3]
    simp only [Option.getD_some, Option.some.injEq]
    ring

/-- C1 witness: adding quantity 2 and then quantity 3 of product "p1" to
an empty cart of user "1" leaves the row at quantity 5. -/
theorem addItem_merges_quantities_witness :
    ((AddItem (AddItem samples.s0 "1" samples.itA 5).1 "1" samples.itB 6).1).qtyOf "1" "p1"
      = some 5 := by
  have h := (addItem_merges_quantities samples.s0 "1" "p1" samples.itA samples.itB
    rfl rfl (by decide) (by decide) 5 6).2.2.1
  rw [h]
  decide

/-- C3: when no row matches both the item id and the user id (including a
row with that id owned by another user), `updateItemQuantity` (with a
positive quantity) and `removeItem` both return `CartItemNotFound` —
translated from the store `ErrNotFound` sentinel, not leaked raw — and the store
is unchanged. -/
theorem notFound_translated_store_unchanged (s : Store) (u : String)
    (itemID : Nat) (q : Int) (hq : 0 < q) (now : Nat)
    (h : ∀ r ∈ s.rows, ¬(r.id = itemID ∧ r.userId = u)) :
    logic.UpdateItemQuantity s u itemID q now
        = ⟨Except.error logic.SvcErr.cartItemNotFound, s, 1⟩ ∧
    logic.RemoveItem s u itemID
        = ⟨Except.error logic.SvcErr.cartItemNotFound, s, 1⟩ := by
  have hfil : s.rows.filter (matchItem itemID u) = [] := by
    rw [List.filter_eq_nil_iff]
    intro r hr
    simp only [matchItem, Bool.and_eq_true, beq_iff_eq]
    exact fun hc => h r hr ⟨hc.1, hc.2⟩
  constructor
  · unfold logic.UpdateItemQuantity
    rw [if_neg (not_le.mpr hq)]
    unfold UpdateItem
    rw [hfil]
    rfl
  · unfold logic.RemoveItem RemoveItem
    rw [hfil]
    rfl

/-- C2 evidence: on a successful `addToCart` against an empty store, the
upsert inserts a row whose id is 1 (the value `RETURNING id` produces),
yet the `CartLineItem` handed back to the caller carries `ID = 0` (the Go
zero value `""`): `PostgresCartRepository.AddItem` receives the item by
value and scans the returned id into that local copy, so the identifier
never reaches the caller. -/
theorem addToCart_returned_id_is_zero :
    (AddItem samples.s0 "1"
        { ID := 0, ProductID := "p1", ProductName := "Wireless Mouse",
          ProductPrice := 29.99, Quantity := 2, Subtotal := 0 } 0).2 = 1 ∧
    ((logic.AddToCart samples.s0 "1" samples.reqA 0).store.rows.map (fun r => r.id))
      = [1] ∧
    (logic.AddToCart samples.s0 "1" samples.reqA 0).res
      = Except.ok
          ({ ID := 0, ProductID := "p1", ProductName := "Wireless Mouse",
             ProductPrice := 29.99, Quantity := 2, Subtotal := 0 } : domain.CartItem) := by
  refine ⟨rfl, rfl, rfl⟩

/-- C3 witness: user "2" updating or removing item 1, which belongs to
user "1", gets `CartItemNotFound` and the store is unchanged. -/
theorem notFound_translated_store_unchanged_witness :
    logic.UpdateItemQuantity samples.s2 "2" 1 1 0
        = ⟨Except.error logic.SvcErr.cartItemNotFound, samples.s2, 1⟩ ∧
    logic.RemoveItem samples.s2 "2" 1
        = ⟨Except.error logic.SvcErr.cartItemNotFound, samples.s2, 1⟩ :=
  notFound_translated_store_unchanged samples.s2 "2" 1 1 (by decide) 0 (by decide)

/-- C4 counterexample: with a single stored row of quantity 2 for user
"1", `getCartCount` returns 2 (the sum of quantities) while the cart
returned by `getCart` has `ItemCount = 1` (the number of line items), so
`getCartCount` does not return the count of distinct line items and does
not equal the `ItemCount` of `getCart`. -/
theorem getCartCount_ne_itemCount_cex :
    (logic.GetCartCount samples.s1m "1").res = Except.ok 2 ∧
    (logic.GetCart true (fun _ => true) samples.s1m "1").res.toOption.map
        (fun c => c.ItemCount) = some 1 ∧
    (2 : Int) ≠ (1 : Int) := by
  refine ⟨rfl, rfl, by decide⟩

/-- C4 amended: `getCartCount` returns the sum of quantities over the
rows of the user (`SELECT COALESCE(SUM(quantity), 0)`), 0 when the user has no
rows (absence is not an error), while the `ItemCount` of `getCart` counts
distinct line items; the two definitions agree exactly on carts in which
every row of the user has quantity 1. -/
theorem getCartCount_semantics (s : Store) (u : String) :
    (logic.GetCartCount s u).res
      = Except.ok (((s.rows.filter (matchUser u)).map (fun r => r.quantity)).sum) ∧
    ((∀ r ∈ s.rows, r.userId ≠ u) → (logic.GetCartCount s u).res = Except.ok 0) ∧
    (logic.GetCart true (fun _ => true) s u).res.toOption.map (fun c => c.ItemCount)
      = some (s.rows.filter (matchUser u)).length ∧
    ((∀ r ∈ s.rows, r.userId = u → r.quantity = 1) →
      (logic.GetCartCount s u).res
        = Except.ok ((s.rows.filter (matchUser u)).length : Int)) := by
  refine ⟨rfl, ?_, ?_, ?_⟩
  · intro h
    have hfil : s.rows.filter (matchUser u) = [] := by
      rw [List.filter_eq_nil_iff]
      intro r hr
      simp only [matchUser, beq_iff_eq]
      exact h r hr
    unfold logic.GetCartCount GetItemCount
    rw [hfil]
    rfl
  · unfold logic.GetCart FindByUserID
    simp only [if_pos]
    rw [scanRows_fst]
    simp
    exact ⟨_, rfl, rfl⟩
  · intro h
    have hone : ∀ r ∈ s.rows.filter (matchUser u), r.quantity = 1 := by
      intro r hr
      have hm := List.mem_filter.mp hr
      exact h r hm.1 (by simpa [matchUser, beq_iff_eq] using hm.2)
    unfold logic.GetCartCount GetItemCount
    rw [sum_map_one _ _ hone]

/-- C4 witness: for the store holding only the keyboard row (quantity 1)
of user "1", `getCartCount` returns 1, equal to the `ItemCount` of `getCart`;
for an absent user "9" it returns 0. -/
theorem getCartCount_semantics_witness :
    (logic.GetCartCount samples.s1k "1").res = Except.ok 1 ∧
    (logic.GetCart true (fun _ => true) samples.s1k "1").res.toOption.map
        (fun c => c.ItemCount) = some 1 ∧
    (logic.GetCartCount samples.s1k "9").res = Except.ok 0 := by
  have h1 := getCartCount_semantics samples.s1k "1"
  have h9 := getCartCount_semantics samples.s1k "9"
  refine ⟨?_, ?_, ?_⟩
  · rw [h1.2.2.2 (by decide)]
    rfl
  · rw [h1.2.2.1]
    rfl
  · exact h9.2.1 (by decide)

/-- C5 counterexample: `addItem` is not idempotent with respect to store
state: adding quantity 2 of product "p1" twice to an empty cart of user
"1" leaves a different store (quantity 4) than adding it once
(quantity 2). -/
theorem addItem_not_idempotent_cex :
    ((AddItem (AddItem samples.s0 "1" samples.itA 0).1 "1" samples.itA 0).1).qtyOf "1" "p1"
      = some 4 ∧
    ((AddItem samples.s0 "1" samples.itA 0).1).qtyOf "1" "p1" = some 2 ∧
    (AddItem (AddItem samples.s0 "1" samples.itA 0).1 "1" samples.itA 0).1
      ≠ (AddItem samples.s0 "1" samples.itA 0).1 := by
  refine ⟨rfl, rfl, fun hcontra => ?_⟩
  have h := congrArg (fun st => st.qtyOf "1" "p1") hcontra
  have e1 : ((AddItem (AddItem samples.s0 "1" samples.itA 0).1 "1" samples.itA 0).1).qtyOf "1" "p1"
      = some 4 := rfl
  have e2 : ((AddItem samples.s0 "1" samples.itA 0).1).qtyOf "1" "p1" = some 2 := rfl
  simp only at h
  rw [e1, e2] at h
  exact absurd h (by decide)

/-- C5 amended: `updateItemQuantity`, `removeItem` and `clear` are
idempotent with respect to store state (repeating the call at the same
instant leaves the store where one call left it), and `clearCart` always
succeeds and leaves zero rows for the user — in particular it is a
successful no-op on a user with zero rows.  `addItem` is excluded: its
upsert adds the quantity again on every execution. -/
theorem retry_idempotent_amended (s : Store) (u : String) (itemID : Nat)
    (q : Int) (now : Nat) :
    (logic.UpdateItemQuantity (logic.UpdateItemQuantity s u itemID q now).store
        u itemID q now).store
      = (logic.UpdateItemQuantity s u itemID q now).store ∧
    (logic.RemoveItem (logic.RemoveItem s u itemID).store u itemID).store
      = (logic.RemoveItem s u itemID).store ∧
    (logic.ClearCart (logic.ClearCart s u).store u).store
      = (logic.ClearCart s u).store ∧
    (logic.ClearCart s u).res = Except.ok () ∧
    ((logic.ClearCart s u).store.rows.filter (matchUser u)) = [] := by
  refine ⟨?_, ?_, ?_, rfl, ?_⟩
  · by_cases hq : q ≤ 0
    · simp [logic.UpdateItemQuantity, if_pos hq]
    · cases he : (s.rows.filter (matchItem itemID u)).isEmpty with
      | true => simp [logic.UpdateItemQuantity, if_neg hq, UpdateItem, he]
      | false =>
        have hne2 : ((s.rows.map (fun r =>
            if matchItem itemID u r then { r with quantity := q, updatedAt := now }
            else r)).filter (matchItem itemID u)).isEmpty = false := by
          rw [filter_map_condUpdate (matchItem itemID u)
            (fun r => { r with quantity := q, updatedAt := now }) (fun r => rfl)]
          have hmap : ∀ l : List CartRow, (l.map (fun r =>
              if matchItem itemID u r then { r with quantity := q, updatedAt := now }
              else r)).isEmpty = l.isEmpty := by
            intro l
            cases l <;> rfl
          rw [hmap]
          exact he
        simp [logic.UpdateItemQuantity, if_neg hq, UpdateItem, he, hne2,
          map_condUpdate_idem (matchItem itemID u)
            (fun r => { r with quantity := q, updatedAt := now })
            (fun r => rfl) (fun r => rfl)]
  · cases he : (s.rows.filter (matchItem itemID u)).isEmpty with
    | true => simp [logic.RemoveItem, RemoveItem, he]
    | false =>
      have h2 : ((s.rows.filter (fun r => !matchItem itemID u r)).filter
          (matchItem itemID u)).isEmpty = true := by
        rw [filter_not_filter]
        rfl
      simp [logic.RemoveItem, RemoveItem, he, h2]
  · simp [logic.ClearCart, Clear, filter_not_idem]
  · simp [logic.ClearCart, Clear, filter_not_filter]

/-- C6: for every sequence of stored line items, the cart built by
`findByUser` has per-item Subtotal equal to
`ProductPrice × Quantity`, cart Subtotal equal to the sum of item
subtotals, Shipping equal to the fixed 5.00, Total equal to
Subtotal + 5.00, and ItemCount equal to the number of line items; an
empty sequence yields a zero-valued cart, not an error. -/
theorem getCart_aggregate (s : Store) (u : String) : ∃ cart,
    FindByUserID true (fun _ => true) s u = Except.ok cart ∧
    (∀ it ∈ cart.Items, it.Subtotal = it.ProductPrice * (it.Quantity : ℚ)) ∧
    cart.Subtotal = (cart.Items.map (fun it => it.Subtotal)).sum ∧
    cart.Shipping = 5 ∧
    cart.Total = cart.Subtotal + 5 ∧
    cart.ItemCount = cart.Items.length ∧
    (s.rows.filter (matchUser u) = [] →
      cart.Items = [] ∧ cart.Subtotal = 0 ∧ cart.Total = 5 ∧ cart.ItemCount = 0) := by
  refine ⟨_, rfl, ?_, ?_, rfl, rfl, rfl, ?_⟩
  · intro it hit
    rw [scanRows_fst] at hit
    obtain ⟨r, hr, rfl⟩ := List.mem_map.mp hit
    rfl
  · exact scanRows_snd _ _
  · intro h
    rw [h]
    refine ⟨rfl, rfl, ?_, rfl⟩
    show (0 : ℚ) + 5 = 5
    rw [zero_add]

/-- C6 witness: the empty store yields the zero-valued cart with
Total = 5.00; the worked example of the spec (29.99 × 2 and 79.99 × 1) yields
Subtotal 139.97, Total 144.97, ItemCount 2. -/
theorem getCart_aggregate_witness :
    (FindByUserID true (fun _ => true) samples.s0 "1").toOption.map
        (fun c => (c.Items, c.Subtotal, c.Total, c.ItemCount))
      = some ([], 0, 5, 0) ∧
    (FindByUserID true (fun _ => true) samples.s2 "1").toOption.map
        (fun c => (c.Subtotal, c.Total, c.ItemCount))
      = some (139.97, 144.97, 2) := by
  constructor
  · obtain ⟨cart, hok, hsub, hsum, hship, htot, hcount, hempty⟩ :=
      getCart_aggregate samples.s0 "1"
    have he := hempty rfl
    rw [hok]
    simp [Except.toOption, he.1, he.2.1, he.2.2.1, he.2.2.2]
  · have hc : (FindByUserID true (fun _ => true) samples.s2 "1").toOption.map
        (fun c => (c.Subtotal, c.Total, c.ItemCount))
      = some (29.99 * ((2 : Int) : ℚ) + (79.99 * ((1 : Int) : ℚ) + 0),
              29.99 * ((2 : Int) : ℚ) + (79.99 * ((1 : Int) : ℚ) + 0) + 5, 2) := rfl
    rw [hc]
    norm_num

/-- C7 counterexample: with user "1" owning two rows and the scan of row
id 2 failing, `findByUser` succeeds with a single item: the failing row
is silently dropped instead of the whole read failing. -/
theorem findByUserID_partial_cex :
    (samples.s2.rows.filter (matchUser "1")).length = 2 ∧
    (FindByUserID true (fun r => r.id != 2) samples.s2 "1").toOption.map
        (fun c => c.Items.length) = some 1 :=
  ⟨rfl, rfl⟩

/-- C7 amended: a failure of the query itself is reported as a store
error, but a scan failure on an individual row is swallowed: that row is
skipped (Go `continue`) and the remaining rows are returned as a
successful — possibly partial — cart. -/
theorem findByUserID_failure_semantics (s : Store) (u : String)
    (scanOk : CartRow → Bool) :
    FindByUserID false scanOk s u = Except.error domain.RepoErr.storeError ∧
    ∃ cart, FindByUserID true scanOk s u = Except.ok cart ∧
      cart.Items = ((s.rows.filter (matchUser u)).filter scanOk).map scanItem :=
  ⟨rfl, _, rfl, scanRows_fst _ _⟩

/-- C8: a request with quantity ≤ 0 is rejected with `InvalidQuantity`
before any store access: both `addToCart` and `updateItemQuantity` return
the error with zero repository calls and the store unchanged. -/
theorem validation_short_circuit (s : Store) (u : String)
    (req : domain.AddToCartRequest) (itemID : Nat) (q : Int) (now : Nat)
    (hreq : req.Quantity ≤ 0) (hq : q ≤ 0) :
    logic.AddToCart s u req now
      = ⟨Except.error logic.SvcErr.invalidQuantity, s, 0⟩ ∧
    logic.UpdateItemQuantity s u itemID q now
      = ⟨Except.error logic.SvcErr.invalidQuantity, s, 0⟩ := by
  unfold logic.AddToCart logic.UpdateItemQuantity
  rw [if_pos hreq, if_pos hq]
  exact ⟨rfl, rfl⟩

/-- C8 witness: `addToCart` with quantity 0 and `updateItemQuantity` with
quantity 0 return `InvalidQuantity`, leave the store unchanged and issue
zero repository calls. -/
theorem validation_short_circuit_witness :
    logic.AddToCart samples.s2 "1" samples.reqZero 0
      = ⟨Except.error logic.SvcErr.invalidQuantity, samples.s2, 0⟩ ∧
    logic.UpdateItemQuantity samples.s2 "1" 1 0 0
      = ⟨Except.error logic.SvcErr.invalidQuantity, samples.s2, 0⟩ :=
  validation_short_circuit samples.s2 "1" samples.reqZero 1 0 0
    (by decide) (by decide)

/-- C9: starting from a store in which every row has quantity > 0, every
service operation with any arguments leaves every row with
quantity > 0. -/
theorem quantity_invariant_preserved (s : Store) (h : s.PosQty) (u : String)
    (req : domain.AddToCartRequest) (itemID : Nat) (q : Int) (now : Nat)
    (queryOk : Bool) (scanOk : CartRow → Bool) :
    ((logic.GetCart queryOk scanOk s u).store).PosQty ∧
    ((logic.GetCartCount s u).store).PosQty ∧
    ((logic.AddToCart s u req now).store).PosQty ∧
    ((logic.UpdateItemQuantity s u itemID q now).store).PosQty ∧
    ((logic.RemoveItem s u itemID).store).PosQty ∧
    ((logic.ClearCart s u).store).PosQty := by
  have hget : (logic.GetCart queryOk scanOk s u).store = s := by
    unfold logic.GetCart
    cases FindByUserID queryOk scanOk s u <;> rfl
  refine ⟨by rw [hget]; exact h, h, ?_, ?_, ?_, ?_⟩
  · unfold logic.AddToCart
    by_cases hq0 : req.Quantity ≤ 0
    · rw [if_pos hq0]
      exact h
    · rw [if_neg hq0]
      have hqpos : 0 < req.Quantity := not_le.mp hq0
      show Store.PosQty (AddItem s u _ now).1
      unfold AddItem
      cases hf : s.rows.find? (matchKey u req.ProductID) with
      | some r =>
        intro r0 hr0
        obtain ⟨r1, hr1, rfl⟩ := List.mem_map.mp hr0
        by_cases hm : matchKey u req.ProductID r1
        · rw [if_pos hm]
          exact add_pos (h r1 hr1) hqpos
        · rw [if_neg hm]
          exact h r1 hr1
      | none =>
        intro r0 hr0
        rcases List.mem_append.mp hr0 with hin | hnew
        · exact h r0 hin
        · rw [List.mem_singleton.mp hnew]
          exact hqpos
  · unfold logic.UpdateItemQuantity
    by_cases hq0 : q ≤ 0
    · rw [if_pos hq0]
      exact h
    · rw [if_neg hq0]
      unfold UpdateItem
      by_cases he : (s.rows.filter (matchItem itemID u)).isEmpty
      · rw [if_pos he]
        exact h
      · rw [if_neg he]
        intro r0 hr0
        obtain ⟨r1, hr1, rfl⟩ := List.mem_map.mp hr0
        by_cases hm : matchItem itemID u r1
        · rw [if_pos hm]
          exact not_le.mp hq0
        · rw [if_neg hm]
          exact h r1 hr1
  · unfold logic.RemoveItem RemoveItem
    by_cases he : (s.rows.filter (matchItem itemID u)).isEmpty
    · rw [if_pos he]
      exact h
    · rw [if_neg he]
      intro r0 hr0
      exact h r0 (List.mem_filter.mp hr0).1
  · intro r0 hr0
    exact h r0 (List.mem_filter.mp hr0).1

/-- C9 witness: all six operations, run on the two-row store of user "1"
(all quantities positive), leave a store in which every row has positive
quantity. -/
theorem quantity_invariant_preserved_witness :
    ((logic.GetCart true (fun _ => true) samples.s2 "1").store).PosQty ∧
    ((logic.GetCartCount samples.s2 "1").store).PosQty ∧
    ((logic.AddToCart samples.s2 "1" samples.reqA 7).store).PosQty ∧
    ((logic.UpdateItemQuantity samples.s2 "1" 1 3 7).store).PosQty ∧
    ((logic.RemoveItem samples.s2 "1" 1).store).PosQty ∧
    ((logic.ClearCart samples.s2 "1").store).PosQty :=
  quantity_invariant_preserved samples.s2 (by decide) "1" samples.reqA 1 3 7
    true (fun _ => true)

/-- C10: when `UpdateItem` succeeds, a row matching the item id and user
existed, the SERIAL sequence and row count are unchanged, the matched
row has its quantity set to exactly the given value (absolute set, not an
increment) and its `updated_at` is refreshed, while every other field of
that row and every other row are left unchanged. -/
theorem updateItem_frame (s : Store) (u : String) (itemID : Nat) (q : Int)
    (now : Nat) (s2 : Store)
    (h : UpdateItem s u itemID q now = Except.ok s2) :
    (∃ r ∈ s.rows, r.id = itemID ∧ r.userId = u) ∧
    s2.nextId = s.nextId ∧
    s2.rows.length = s.rows.length ∧
    ∀ i : Nat, ∀ r : CartRow, s.rows[i]? = some r →
      ((r.id = itemID ∧ r.userId = u) →
        s2.rows[i]? = some { r with quantity := q, updatedAt := now }) ∧
      (¬(r.id = itemID ∧ r.userId = u) → s2.rows[i]? = s.rows[i]?) := by
  unfold UpdateItem at h
  by_cases he : (s.rows.filter (matchItem itemID u)).isEmpty
  · rw [if_pos he] at h
    exact absurd h (by simp)
  · rw [if_neg he] at h
    rw [Except.ok.injEq] at h
    subst h
    refine ⟨?_, rfl, by simp, ?_⟩
    · have hne : s.rows.filter (matchItem itemID u) ≠ [] := by
        intro hnil
        rw [hnil] at he
        exact he rfl
      obtain ⟨r, hr⟩ := List.exists_mem_of_ne_nil _ hne
      have hm := List.mem_filter.mp hr
      have hmm := hm.2
      simp only [matchItem, Bool.and_eq_true, beq_iff_eq] at hmm
      exact ⟨r, hm.1, hmm⟩
    · intro i r hir
      have hgm : (s.rows.map (fun r0 =>
          if matchItem itemID u r0 then { r0 with quantity := q, updatedAt := now }
          else r0))[i]?
          = some (if matchItem itemID u r then { r with quantity := q, updatedAt := now }
              else r) := by
        rw [List.getElem?_map, hir]
        rfl
      constructor
      · intro hmatch
        have hm : matchItem itemID u r = true := by
          simp only [matchItem, Bool.and_eq_true, beq_iff_eq]
          exact hmatch
        exact hgm.trans (by rw [if_pos hm])
      · intro hnot
        have hm : ¬(matchItem itemID u r = true) := by
          simp only [matchItem, Bool.and_eq_true, beq_iff_eq]
          exact hnot
        rw [hir]
        exact hgm.trans (by rw [if_neg hm])

/-- C10 witness: updating item 1 of user "1" to quantity 7 at time 9 in
the two-row store succeeds, sets row 0 to quantity 7 with `updated_at` 9
keeping its other fields, and leaves row 1 and the SERIAL sequence
untouched. -/
theorem updateItem_frame_witness :
    samples.s2upd.rows[0]?
      = some { samples.rowMouse with quantity := 7, updatedAt := 9 } ∧
    samples.s2upd.rows[1]? = some samples.rowKeyboard ∧
    samples.s2upd.nextId = samples.s2.nextId := by
  have h := updateItem_frame samples.s2 "1" 1 7 9 samples.s2upd rfl
  refine ⟨?_, ?_, h.2.1⟩
  · exact (h.2.2.2 0 samples.rowMouse rfl).1 (by decide)
  · have h1 := (h.2.2.2 1 samples.rowKeyboard rfl).2 (by decide)
    rw [h1]
    rfl

end CartService
